import Mathlib

/-!
Verification development for the paw-quiz server (`main.py`).

The definitions below are a shallow embedding of the core of the program:
the dataset filter, the deterministic level builder, the run builder, the
run-token codec and the run state machine.  Pure Python functions become
Lean functions; the Flask handlers are modelled from the point where the
request body has been parsed and (for token-carrying endpoints) the token
payload has been decoded, which is exactly the boundary the claims talk
about.  Machine integers are modelled as `Int`/`Nat` (no overflow is
possible on the involved quantities), Python `None`-able slots become
`Option`, and fallible code returns `Except String` carrying the exact
error strings raised in the source.
-/

namespace PawQuiz

/-- Constant `QUESTIONS_PER_LEVEL = 15` (main.py line 56). -/
def QUESTIONS_PER_LEVEL : Nat := 15

/-- Constant `UNKNOWN_LIMIT = 5` (main.py line 57). -/
def UNKNOWN_LIMIT : Nat := 5

/-- Constant `EXCLUDE_PROFILE_KEYS` (main.py line 66). -/
def EXCLUDE_PROFILE_KEYS : List String := ["Stimme (US/Kanada)", "Stimme (UK)"]

/-- Character class of `ID_RE = ^[a-z0-9-]{1,80}$` (main.py line 59). -/
def isIdChar (c : Char) : Bool :=
  (('a' ≤ c && c ≤ 'z') || ('0' ≤ c && c ≤ '9') || c == '-')

/-- Model of `ID_RE.fullmatch`: lowercase slug of length 1..80 (main.py line 59). -/
def idRe (s : String) : Bool :=
  (1 ≤ s.length && s.length ≤ 80) && s.data.all isIdChar

/-- Character class of `TOKEN_RE = ^[A-Za-z0-9._-]{20,8000}$` (main.py line 60). -/
def isTokenChar (c : Char) : Bool :=
  (('a' ≤ c && c ≤ 'z') || ('A' ≤ c && c ≤ 'Z') || ('0' ≤ c && c ≤ '9') ||
    c == '.' || c == '_' || c == '-')

/-- Model of `TOKEN_RE.match`: token shape check, length 20..8000 (main.py line 60).
(The Python pattern is anchored at both ends by the `{20,8000}$` suffix, so
`match` and `fullmatch` agree here.) -/
def tokenRe (s : String) : Bool :=
  (20 ≤ s.length && s.length ≤ 8000) && s.data.all isTokenChar

/-! ### Dataset model

`get_valid_characters` (main.py lines 160-208) produces a list of records
with fields `id`, `name`, `image_rel`, `profile_flat`, `source.page_url`,
`source.attribution`; everything downstream of it only uses that shape, so
we model its output type directly.  The raw-JSON validation and the
filesystem image checks inside it are I/O and are not needed by any claim. -/

/-- Source attribution subrecord kept by `get_valid_characters` (main.py lines 199-203). -/
structure SourceInfo where
  page_url : String
  attribution : String
deriving DecidableEq, Repr

/-- One entry of the `get_valid_characters()` output (main.py lines 193-204).
The profile is an association list; JSON objects have unique keys, which we
assume throughout (Python dicts would silently collapse duplicates). -/
structure ValidChar where
  id : String
  name : String
  image_rel : String
  profile_flat : List (String × String)
  source : SourceInfo
deriving DecidableEq, Repr

/-- Model of Python `str.strip()`: drop whitespace from both ends.  (Python
also strips some exotic Unicode whitespace; the dataset's strings are plain
text, and nothing in the claims depends on those characters.) -/
def pyStrip (s : String) : String :=
  ⟨((s.data.dropWhile (fun c => c.isWhitespace)).reverse.dropWhile
      (fun c => c.isWhitespace)).reverse⟩

/-- Model of Python `str.lower()` for the ASCII letters (the only case the
compared literals `"unbekannt"`/`"unknown"` contain). -/
def pyLower (s : String) : String :=
  ⟨s.data.map (fun c => if 'A' ≤ c ∧ c ≤ 'Z' then Char.ofNat (c.toNat + 32) else c)⟩

/-- Model of `_filter_profile_flat` (main.py lines 211-221): drop excluded or
blank keys and blank values, keeping trimmed key/value pairs. -/
def filter_profile_flat (pf : List (String × String)) : List (String × String) :=
  pf.filterMap (fun kv =>
    let kk := pyStrip kv.1
    if kk = "" ∨ kk ∈ EXCLUDE_PROFILE_KEYS then none
    else
      let vv := pyStrip kv.2
      if vv = "" then none else some (kk, vv))

/-- Model of `_unknown_count` (main.py lines 224-230): count remaining profile
values equal to `"unbekannt"` case-insensitively.  Note the source compares
against the German word only. -/
def unknown_count (pf : List (String × String)) : Nat :=
  (filter_profile_flat pf).countP (fun kv => (pyLower (pyStrip kv.2) = "unbekannt" : Bool))

/-- Modelled from the spec (claim C5 wording): the count the specification
describes, which treats both `"unbekannt"` and `"unknown"` (case-insensitively)
as unknown values.  Used only to compare the spec against `unknown_count`. -/
def spec_unknown_count (pf : List (String × String)) : Nat :=
  (filter_profile_flat pf).countP
    (fun kv =>
      (pyLower (pyStrip kv.2) = "unbekannt" ∨ pyLower (pyStrip kv.2) = "unknown" : Bool))

/-- Model of `get_eligible_characters` (main.py lines 233-243): keep valid
characters with fewer than `UNKNOWN_LIMIT` unknown profile values, failing
when fewer than 3 remain. -/
def get_eligible_characters (valid : List ValidChar) : Except String (List ValidChar) :=
  let eligible := valid.filter (fun c => unknown_count c.profile_flat < UNKNOWN_LIMIT)
  if eligible.length < 3 then
    Except.error "Zu wenig geeignete Charaktere (>=3 benötigt)."
  else
    Except.ok eligible

/-! ### Deterministic level builder

`get_levels` (main.py lines 265-306) partitions the eligible characters into
levels of 15, reproducibly.  Its two sources of (seeded) pseudo-randomness
are `random.Random(seed)` instances whose seed comes from `_stable_rng`
(main.py lines 258-262).  We keep the seeded generators abstract: the
SHA-256 digest and the generator behaviour are parameters (`digest`,
`shuffleImpl`, `randImpl`), all plain functions — so the whole pipeline is a
pure function of those algorithms plus the dataset, which is exactly what
the determinism claims are about. -/

/-- Model of `_derive_secret_from_dataset_bytes` (main.py lines 101-106):
an operator-supplied `APP_SECRET` wins; otherwise the hex digest of the
dataset bytes, with a fixed fallback for an empty digest.  `sha256hex`
abstracts `hashlib.sha256(...).hexdigest()`; bytes are modelled as `List Nat`. -/
def derive_secret_from_dataset_bytes (sha256hex : List Nat → String)
    (envSecret : Option String) (allBytes : List Nat) : String :=
  let env := pyStrip (envSecret.getD "")
  if env ≠ "" then env
  else
    let h := sha256hex allBytes
    if h = "" then "paw-quiz-fallback-secret" else h

/-- Model of the seed computation in `_stable_rng` (main.py lines 258-262):
hash `secret ++ "::" ++ "|".join(parts)` and read the first 8 digest bytes
big-endian.  `digest` abstracts `hashlib.sha256(...).digest()` (a list of
byte values). -/
def stable_seed (digest : String → List Nat) (secret : String) (parts : List String) : Nat :=
  let h := digest (secret ++ "::" ++ String.intercalate "|" parts)
  (h.take 8).foldl (fun a b => a * 256 + b % 256) 0

/-- Placeholder character used for total list indexing (`List.getD`); every
use site is guarded so the default is never actually selected when the
corresponding Python indexing succeeds. -/
def dummyChar : ValidChar := { id := "", name := "", image_rel := "", profile_flat := [], source := ⟨"", ""⟩ }

/-- Model of the fill loop of `get_levels` (main.py lines 290-295): while the
chunk is short, pop a seeded-random element from the unused pool, or — once
the pool is exhausted — copy a seeded-random element of the full ordered
list (duplicates allowed).  `rand k` abstracts the k-th `rng2.randrange`
draw (reduced `% bound` to stay in range); `fuel` is `15 - chunk.length`,
enough for the Python `while` loop which adds one element per iteration.
(`randrange(0, 0)` on an empty `ordered` would raise in Python; that only
happens with zero eligible characters, which `get_eligible_characters`
rules out before `get_levels` can run.) -/
def fill_chunk (rand : Nat → Nat) (ordered : List ValidChar) :
    Nat → Nat → List ValidChar → List ValidChar → List ValidChar
  | _, 0, chunk, _ => chunk
  | k, fuel + 1, chunk, pool =>
    if QUESTIONS_PER_LEVEL ≤ chunk.length then chunk
    else
      match pool with
      | [] =>
        fill_chunk rand ordered (k + 1) fuel
          (chunk ++ [ordered.getD (rand k % ordered.length) dummyChar]) []
      | _ :: _ =>
        let i := rand k % pool.length
        fill_chunk rand ordered (k + 1) fuel
          (chunk ++ [pool.getD i dummyChar]) (pool.eraseIdx i)

/-- One entry of the `get_levels()` output (main.py lines 297-304). -/
structure Level where
  level : Nat
  title : String
  questions : Nat
  character_ids : List String
deriving DecidableEq, Repr

/-- Model of `get_levels` (main.py lines 265-306).  `shuffleImpl seed ids`
abstracts `random.Random(seed).shuffle(ids)` and `randImpl seed k` the k-th
raw draw of `random.Random(seed)` used by the fill loop.  The `for` loop
over levels becomes a map over `List.range level_count`. -/
def get_levels (digest : String → List Nat) (shuffleImpl : Nat → List String → List String)
    (randImpl : Nat → Nat → Nat) (secret : String) (eligible : List ValidChar) : List Level :=
  let n := eligible.length
  let level_count := max 1 ((n + QUESTIONS_PER_LEVEL - 1) / QUESTIONS_PER_LEVEL)
  let seed := stable_seed digest secret ["global-order"]
  let ids := shuffleImpl seed (eligible.map (fun c => c.id))
  let ordered := ids.filterMap (fun i => eligible.find? (fun c => c.id = i))
  (List.range level_count).map (fun lv0 =>
    let lv := lv0 + 1
    let start := (lv - 1) * QUESTIONS_PER_LEVEL
    let chunk := (ordered.drop start).take QUESTIONS_PER_LEVEL
    let chunk2 :=
      if chunk.length < QUESTIONS_PER_LEVEL then
        let pool := ordered.filter (fun c => ¬ (chunk.map (fun x => x.id)).contains c.id)
        let seed2 := stable_seed digest secret ["fill", toString lv]
        fill_chunk (randImpl seed2) ordered 0 (QUESTIONS_PER_LEVEL - chunk.length) chunk pool
      else chunk
    { level := lv, title := "Level " ++ toString lv, questions := QUESTIONS_PER_LEVEL,
      character_ids := chunk2.map (fun c => c.id) })

/-- The level pipeline as run by the process: derive the signing secret from
the dataset bytes (main.py lines 246-255) and compute the levels from it
(the secret is the only input of `_stable_rng` besides the fixed seed
parts).  `sha256hex` and `digest` abstract the two uses of SHA-256. -/
def levels_from_dataset (sha256hex : List Nat → String) (digest : String → List Nat)
    (shuffleImpl : Nat → List String → List String) (randImpl : Nat → Nat → Nat)
    (envSecret : Option String) (allBytes : List Nat) (eligible : List ValidChar) : List Level :=
  get_levels digest shuffleImpl randImpl
    (derive_secret_from_dataset_bytes sha256hex envSecret allBytes) eligible

/-! ### Run payload and state machine

The run payload is the dict built by `_build_run` (main.py lines 353-363)
and rebuilt from the token by `_validate_run_token`.  The handlers below are
modelled from the point where the token has been decoded into a payload —
`_validate_run_token`'s output — which is where all the claims about the
state machine live.  (The codec itself is modelled separately further
down.)  `score`, `next`, `lvl`, `t0` are Python ints, hence `Int`;
`ans`/`ok` slots are `None`-able, hence `Option`. -/

/-- One question spec `{cid, opt}` of a run (main.py line 347). -/
structure QSpec where
  cid : String
  opt : List String
deriving DecidableEq, Repr

/-- Placeholder question spec for total indexing; all uses are guarded by
bounds checks mirroring the source. -/
def dummyQ : QSpec := { cid := "", opt := [] }

/-- The run payload (main.py lines 353-363): fields `v, rid, lvl, t0, score,
next, qs, ans, ok` of the dict the token carries. -/
structure RunP where
  v : Int
  rid : String
  lvl : Int
  t0 : Int
  score : Int
  next : Int
  qs : List QSpec
  ans : List (Option String)
  ok : List (Option Bool)
deriving DecidableEq, Repr

/-- Structural facts `_validate_run_token` (main.py lines 447-476) guarantees
about every payload it returns: the three arrays have exactly 15 entries and
the `next` cursor lies in `[0, 15]`. -/
def validRun (r : RunP) : Prop :=
  r.qs.length = QUESTIONS_PER_LEVEL ∧ r.ans.length = QUESTIONS_PER_LEVEL ∧
    r.ok.length = QUESTIONS_PER_LEVEL ∧ 0 ≤ r.next ∧ r.next ≤ (QUESTIONS_PER_LEVEL : Int)

instance (r : RunP) : Decidable (validRun r) := by
  unfold validRun; infer_instance

/-- Model of `_find_character` (main.py lines 317-323): slug check, then the
first valid character with that id.  `ds` is the `get_valid_characters()`
list. -/
def find_character (ds : List ValidChar) (cid : String) : Option ValidChar :=
  if ¬ idRe cid then none else ds.find? (fun c => c.id = cid)

/-- Display-name lookup `name_map.get(oid, oid)` (main.py lines 392-393);
character ids are unique in the dataset, so first-match equals the Python
dict built from the same list. -/
def nameOf (ds : List ValidChar) (oid : String) : String :=
  match ds.find? (fun c => c.id = oid) with
  | some c => c.name
  | none => oid

/-- The question view built by `_question_payload` (main.py lines 378-431).
`image_rel` carries the raw relative path (the HTTP layer prefixes `/media/`
and percent-encodes it); the `source` block only ever holds `attribution`
and `page_url` because `get_valid_characters` stores nothing else, so the
remaining source fields are constantly empty strings and are omitted. -/
structure QView where
  idx : Int
  pos : Int
  total : Nat
  image_rel : String
  options : List (String × String)
  answered : Bool
  selected_id : Option String
  correct_id : Option String
  correct : Option Bool
  src_attribution : String
  src_page_url : String
deriving DecidableEq, Repr

/-- Model of `_question_payload` (main.py lines 378-431): bounds check against
`len(qs)`, character lookup, option texts, and the reveal fields that are
populated only for an already-answered position. -/
def question_payload (ds : List ValidChar) (r : RunP) (pos : Int) : Except String QView :=
  if pos < 0 ∨ (r.qs.length : Int) ≤ pos then Except.error "Ungültige Frage-Position."
  else
    let p := pos.toNat
    let q := r.qs.getD p dummyQ
    match find_character ds q.cid with
    | none => Except.error "Charakter nicht gefunden."
    | some ch =>
      let answered := (r.ans.getD p none).isSome
      let selected := if answered then r.ans.getD p none else none
      let correct_id := if answered then some q.cid else none
      Except.ok
        { idx := pos + 1, pos := pos, total := QUESTIONS_PER_LEVEL,
          image_rel := ch.image_rel,
          options := q.opt.map (fun oid => (oid, nameOf ds oid)),
          answered := answered, selected_id := selected, correct_id := correct_id,
          correct := if answered then some (decide (selected = correct_id)) else none,
          src_attribution := ch.source.attribution, src_page_url := ch.source.page_url }

/-- Count of `True` entries of the `ok` array (`sum(1 for x in ... if x is
True)`, main.py line 436). -/
def countTrue (l : List (Option Bool)) : Nat :=
  l.countP (fun x => (x = some true : Bool))

/-- The run summary of `_summary_from_run` (main.py lines 434-444).  The
`accuracy` field is a Python float (`correct_n / 15`) and is left out of the
model; no claim mentions it. -/
structure Summary where
  level : Int
  score : Int
  correct_n : Int
  duration_s : Int
deriving DecidableEq, Repr

/-- Model of `_summary_from_run` (main.py lines 434-444); `now` stands for
`int(time.time())`, and the duration is floored at zero. -/
def summary_from_run (now : Int) (r : RunP) : Summary :=
  { level := r.lvl, score := r.score, correct_n := (countTrue r.ok : Int),
    duration_s := max 0 (now - r.t0) }

/-- Successful response of the answer endpoint: updated payload, answered
question view, done flag, and the summary present exactly when done
(main.py lines 635-643). -/
structure AnswerOut where
  run : RunP
  question : QView
  done : Bool
  summary : Option Summary
deriving DecidableEq, Repr

/-- Model of `api_run_answer` (main.py lines 593-646) from the point where
the request body is parsed, on the decoded payload `r`: the `ID_RE` check on
`choice_id` (performed in the source before the token is even decoded, and
independent of it), the strict `pos == next` rule, the bounds check, the
option-membership check, then the state update, the re-encoded payload
(returned here as `run`), the answered view, the done flag and the
conditional summary.  On any error the handler returns no updated token, so
the client's state is untouched.  The `none` arm of the `qs` lookup is
unreachable for validated payloads (`qs` always has 15 entries). -/
def api_run_answer (ds : List ValidChar) (now : Int) (r : RunP) (pos : Int)
    (choice_id : String) : Except String AnswerOut :=
  if ¬ idRe choice_id then Except.error "Ungültige Auswahl."
  else if pos ≠ r.next then Except.error "Nur die nächste offene Frage kann beantwortet werden."
  else if pos < 0 ∨ (QUESTIONS_PER_LEVEL : Int) ≤ pos then Except.error "Ungültige Frage-Position."
  else
    let p := pos.toNat
    match r.qs.get? p with
    | none => Except.error "Interner Fehler: qs-Index."
    | some qspec =>
      if choice_id ∉ qspec.opt then Except.error "Auswahl passt nicht zur Frage."
      else
        let is_correct : Bool := decide (choice_id = qspec.cid)
        let r2 : RunP :=
          { r with
            ans := r.ans.set p (some choice_id),
            ok := r.ok.set p (some is_correct),
            score := if is_correct then r.score + 1 else r.score,
            next := r.next + 1 }
        match question_payload ds r2 pos with
        | Except.error m => Except.error m
        | Except.ok q =>
          let done : Bool := decide ((QUESTIONS_PER_LEVEL : Int) ≤ r2.next)
          Except.ok
            { run := r2, question := q, done := done,
              summary := if done then some (summary_from_run now r2) else none }

/-- Model of `api_run_question` (main.py lines 564-590) on the decoded
payload: navigation bound `0 ≤ pos ≤ next`, position bound, then the pure
view; the payload is re-encoded unchanged (`_update_run_token` only
re-normalizes fields that are already ints), so the returned run is `r`
itself. -/
def api_run_question (ds : List ValidChar) (r : RunP) (pos : Int) :
    Except String (RunP × QView) :=
  if pos < 0 ∨ r.next < pos then Except.error "Diese Frage ist noch nicht freigeschaltet."
  else if (QUESTIONS_PER_LEVEL : Int) ≤ pos then Except.error "Ungültige Frage-Position."
  else
    match question_payload ds r pos with
    | Except.error m => Except.error m
    | Except.ok q => Except.ok (r, q)

/-- Successful response of the resume endpoint (main.py lines 552-559). -/
structure ResumeOut where
  run : RunP
  view_pos : Int
  question : QView
  done : Bool
  summary : Option Summary
deriving DecidableEq, Repr

/-- Model of `api_run_resume` (main.py lines 539-561) on the decoded payload:
view position `max(0, next - 1)` (or 0 when nothing is answered yet), the
view, done flag and conditional summary; the payload is returned unchanged. -/
def api_run_resume (ds : List ValidChar) (now : Int) (r : RunP) : Except String ResumeOut :=
  let view_pos : Int := if 0 < r.next then max 0 (r.next - 1) else 0
  match question_payload ds r view_pos with
  | Except.error m => Except.error m
  | Except.ok q =>
    let done : Bool := decide ((QUESTIONS_PER_LEVEL : Int) ≤ r.next)
    Except.ok
      { run := r, view_pos := view_pos, question := q, done := done,
        summary := if done then some (summary_from_run now r) else none }

/-- Discriminator for `Except` results (`True` exactly on success). -/
def isOkE {α : Type} (e : Except String α) : Bool :=
  match e with
  | Except.ok _ => true
  | Except.error _ => false

/-! ### Run token codec

`_token_dumps`/`_token_loads` (main.py lines 113-124) wrap `itsdangerous`'
`URLSafeTimedSerializer`: the payload is serialized, timestamped, and
HMAC-signed; `loads` first checks the signature (`BadSignature`) and then
the embedded timestamp's age (`SignatureExpired`).  We model a token at the
boundary the serializer provides: its literal text (for the `TOKEN_RE` shape
check), the JSON value it carries, its age, and whether its signature
verifies under the server's secret.  JSON values are a small AST. -/

/-- JSON value carried by a token. -/
inductive JVal where
  | null : JVal
  | bool : Bool → JVal
  | int : Int → JVal
  | str : String → JVal
  | arr : List JVal → JVal
  | obj : List (String × JVal) → JVal

/-- Lookup in a JSON object, modelling Python `dict.get` (object keys are
unique, so first match is the dict entry). -/
def objGet (kvs : List (String × JVal)) (k : String) : Option JVal :=
  match kvs.find? (fun kv => kv.1 = k) with
  | some kv => some kv.2
  | none => none

/-- In-place update of a JSON object key, modelling Python dict assignment
(existing keys keep their position, new keys are appended). -/
def objSet (kvs : List (String × JVal)) (k : String) (v : JVal) : List (String × JVal) :=
  match kvs with
  | [] => [(k, v)]
  | kv :: rest => if kv.1 = k then (k, v) :: rest else kv :: objSet rest k v

/-- Model of Python `int(...)` on a string: optional sign and ASCII digits
after trimming.  (Python additionally accepts underscore digit separators
and non-ASCII digits; those exotic forms are outside the modelled scope.) -/
def parseIntStr (s : String) : Option Int :=
  match (pyStrip s).data with
  | [] => none
  | c :: rest =>
    let neg := c = '-'
    let digits := if c = '-' ∨ c = '+' then rest else c :: rest
    if digits = [] ∨ ¬ digits.all Char.isDigit then none
    else
      let m : Nat := digits.foldl (fun a d => a * 10 + (d.toNat - 48)) 0
      some (if neg then -(m : Int) else (m : Int))

/-- Model of `_safe_int` (main.py lines 90-94) on a JSON value: `int(v)` with
a default on failure (`int(True) = 1`, numeric strings parse, everything
else raises and yields the default). -/
def safe_int (v : JVal) (d : Int) : Int :=
  match v with
  | JVal.int n => n
  | JVal.bool b => if b then 1 else 0
  | JVal.str s => (parseIntStr s).getD d
  | _ => d

/-- A run token as handed to `_validate_run_token`: literal text, decoded
body, age in seconds, and whether its HMAC signature verifies. -/
structure RawToken where
  text : String
  body : JVal
  age : Int
  sigOk : Bool

/-- The required payload fields of a run token (main.py line 455). -/
def neededRunKeys : List String := ["rid", "lvl", "score", "next", "qs", "ans", "ok", "t0"]

/-- Check that an object field holds a list of exactly 15 elements
(`isinstance(..., list) and len(...) == 15`, main.py lines 460-465). -/
def isList15 (v : Option JVal) : Bool :=
  match v with
  | some (JVal.arr xs) => decide (xs.length = QUESTIONS_PER_LEVEL)
  | _ => false

/-- Payload half of `_validate_run_token` (main.py lines 455-476): required
fields, 15-element arrays, `next` in `[0, 15]`, then int-normalization of
`lvl`, `score`, `next`, `t0` (Python mutates the dict in place; `now` stands
for `int(time.time())`, the default for a malformed `t0`). -/
def validate_run_payload (pkvs : List (String × JVal)) (now : Int) : Except String JVal :=
  if ¬ neededRunKeys.all (fun k => (objGet pkvs k).isSome) then
    Except.error "Run-Token ist unvollständig. Bitte starte das Level neu."
  else if ¬ isList15 (objGet pkvs "qs") then Except.error "Run-Token ist ungültig (qs)."
  else if ¬ isList15 (objGet pkvs "ans") then Except.error "Run-Token ist ungültig (ans)."
  else if ¬ isList15 (objGet pkvs "ok") then Except.error "Run-Token ist ungültig (ok)."
  else
    let nxt := safe_int ((objGet pkvs "next").getD JVal.null) 0
    if nxt < 0 ∨ (QUESTIONS_PER_LEVEL : Int) < nxt then
      Except.error "Run-Token ist ungültig (next)."
    else
      Except.ok (JVal.obj
        (objSet
          (objSet
            (objSet
              (objSet pkvs "lvl" (JVal.int (safe_int ((objGet pkvs "lvl").getD JVal.null) 1)))
              "score" (JVal.int (safe_int ((objGet pkvs "score").getD JVal.null) 0)))
            "next" (JVal.int nxt))
          "t0" (JVal.int (safe_int ((objGet pkvs "t0").getD JVal.null) now))))

/-- Model of `_validate_run_token` (main.py lines 447-476) composed with
`_token_loads` (main.py lines 118-124): token shape, signature, freshness
(signature first, as `itsdangerous` raises `SignatureExpired` only for a
validly signed stale token), envelope `{"k": "run", "p": {...}}`, then the
payload checks.  Error strings are the ones raised in the source. -/
def validate_run_token (t : RawToken) (maxAge now : Int) : Except String JVal :=
  if ¬ tokenRe t.text then Except.error "Ungültiges Token-Format."
  else if ¬ t.sigOk then Except.error "Run-Token ist ungültig. Bitte starte das Level neu."
  else if maxAge < t.age then Except.error "Run-Token ist abgelaufen. Bitte starte das Level neu."
  else
    match t.body with
    | JVal.obj kvs =>
      (match objGet kvs "k", objGet kvs "p" with
       | some (JVal.str kk), some (JVal.obj pkvs) =>
         if kk ≠ "run" then Except.error "Ungültiges Token."
         else validate_run_payload pkvs now
       | _, _ => Except.error "Ungültiges Token.")
    | _ => Except.error "Ungültiges Token."

/-- JSON form of one question spec, as `_build_run` stores it (main.py line 347). -/
def qspecToJ (q : QSpec) : JVal :=
  JVal.obj [("cid", JVal.str q.cid), ("opt", JVal.arr (q.opt.map JVal.str))]

/-- Key/value list of a run payload's JSON object, with the key order of
`_build_run` (main.py lines 353-363). -/
def runPayloadKVs (r : RunP) : List (String × JVal) :=
  [("v", JVal.int r.v), ("rid", JVal.str r.rid), ("lvl", JVal.int r.lvl),
   ("t0", JVal.int r.t0), ("score", JVal.int r.score), ("next", JVal.int r.next),
   ("qs", JVal.arr (r.qs.map qspecToJ)),
   ("ans", JVal.arr (r.ans.map (fun a =>
     match a with
     | some s => JVal.str s
     | none => JVal.null))),
   ("ok", JVal.arr (r.ok.map (fun o =>
     match o with
     | some b => JVal.bool b
     | none => JVal.null)))]

/-- JSON form of a run payload. -/
def runToJ (r : RunP) : JVal :=
  JVal.obj (runPayloadKVs r)

/-- Model of `_update_run_token` + `_token_dumps` (main.py lines 113-115 and
479-485): wrap the (already int-normalized) payload in the `{"k", "p"}`
envelope and sign it.  `enc` abstracts the serializer's text output; a token
the server just signed verifies (`sigOk`) and has age 0. -/
def encode_run (enc : JVal → String) (r : RunP) : RawToken :=
  let body := JVal.obj [("k", JVal.str "run"), ("p", runToJ r)]
  { text := enc body, body := body, age := 0, sigOk := true }

/-- Outcome categories of run-token decoding, as the spec's error taxonomy
names them ("expired" vs "invalid" vs "incomplete", plus success). -/
inductive TokClass where
  | ok : TokClass
  | expired : TokClass
  | invalid : TokClass
  | incomplete : TokClass
deriving DecidableEq, Repr

/-- Classify a decode result by its error string: the source uses exactly one
"abgelaufen" (expired) message and one "unvollständig" (incomplete) message;
every other failure is an "ungültig"/format (invalid) one. -/
def resultClass (e : Except String JVal) : TokClass :=
  match e with
  | Except.ok _ => TokClass.ok
  | Except.error m =>
    if m = "Run-Token ist abgelaufen. Bitte starte das Level neu." then TokClass.expired
    else if m = "Run-Token ist unvollständig. Bitte starte das Level neu." then TokClass.incomplete
    else TokClass.invalid

/-- Modelled from the spec (claim C6 wording): the decode outcome the
specification prescribes, condition by condition in the order the spec lists
them — token shape, signature, staleness, type tag, required fields,
15-element arrays, `next` cursor range — with the error category each
condition is assigned ("expired" vs "invalid" vs "incomplete"), and success
otherwise. -/
def spec_token_class (t : RawToken) (maxAge : Int) : TokClass :=
  if ¬ tokenRe t.text then TokClass.invalid
  else if ¬ t.sigOk then TokClass.invalid
  else if maxAge < t.age then TokClass.expired
  else
    match t.body with
    | JVal.obj kvs =>
      (match objGet kvs "k", objGet kvs "p" with
       | some (JVal.str kk), some (JVal.obj pkvs) =>
         if kk ≠ "run" then TokClass.invalid
         else if ¬ neededRunKeys.all (fun k => (objGet pkvs k).isSome) then TokClass.incomplete
         else if ¬ (isList15 (objGet pkvs "qs") && isList15 (objGet pkvs "ans") &&
                     isList15 (objGet pkvs "ok")) then TokClass.invalid
         else if safe_int ((objGet pkvs "next").getD JVal.null) 0 < 0 ∨
                  (QUESTIONS_PER_LEVEL : Int) < safe_int ((objGet pkvs "next").getD JVal.null) 0 then
           TokClass.invalid
         else TokClass.ok
       | _, _ => TokClass.invalid)
    | _ => TokClass.invalid

/-! ### List helper lemmas

Small facts about `List.set` / `List.getD` / `countP` used by the invariant
proofs below. -/

theorem getD_set_self {α : Type} (l : List α) (i : Nat) (a d : α) (h : i < l.length) :
    (l.set i a).getD i d = a := by
  induction l generalizing i with
  | nil => simp at h
  | cons x xs ih =>
    cases i with
    | zero => simp
    | succ n =>
      simp only [List.set_cons_succ, List.getD_cons_succ]
      exact ih n (by simpa using h)

theorem getD_set_ne {α : Type} (l : List α) (i j : Nat) (a d : α) (h : i ≠ j) :
    (l.set i a).getD j d = l.getD j d := by
  induction l generalizing i j with
  | nil => simp
  | cons x xs ih =>
    cases i with
    | zero =>
      cases j with
      | zero => exact absurd rfl h
      | succ m => simp
    | succ n =>
      cases j with
      | zero => simp
      | succ m =>
        simp only [List.set_cons_succ, List.getD_cons_succ]
        exact ih n m (fun he => h (by simp [he]))

theorem get?_eq_some_getD {α : Type} (l : List α) (i : Nat) (d : α) (h : i < l.length) :
    l.get? i = some (l.getD i d) := by
  induction l generalizing i with
  | nil => simp at h
  | cons x xs ih =>
    cases i with
    | zero => simp
    | succ n =>
      simp only [List.get?_cons_succ, List.getD_cons_succ]
      exact ih n (by simpa using h)

theorem countTrue_set (l : List (Option Bool)) (i : Nat) (b : Bool)
    (hlen : i < l.length) (hnone : l.getD i none = none) :
    countTrue (l.set i (some b)) = countTrue l + (if b then 1 else 0) := by
  induction l generalizing i with
  | nil => simp at hlen
  | cons x xs ih =>
    cases i with
    | zero =>
      simp only [List.getD_cons_zero] at hnone
      subst hnone
      cases b <;> simp [countTrue, List.countP_cons]
    | succ n =>
      simp only [List.getD_cons_succ] at hnone
      simp only [List.set_cons_succ]
      simp only [countTrue, List.countP_cons] at *
      rw [ih n (by simpa using hlen) hnone]
      omega

theorem countTrue_replicate (n : Nat) : countTrue (List.replicate n none) = 0 := by
  induction n with
  | zero => simp [countTrue]
  | succ m ih =>
    simp only [List.replicate_succ, countTrue, List.countP_cons] at *
    simp [ih]

theorem getD_replicate_none (n i : Nat) :
    (List.replicate n (none : Option Bool)).getD i none = none := by
  induction n generalizing i with
  | zero => simp
  | succ m ih =>
    cases i with
    | zero => simp [List.replicate_succ]
    | succ k => simp only [List.replicate_succ, List.getD_cons_succ]; exact ih k

theorem getD_replicate_none_str (n i : Nat) :
    (List.replicate n (none : Option String)).getD i none = none := by
  induction n generalizing i with
  | zero => simp
  | succ m ih =>
    cases i with
    | zero => simp [List.replicate_succ]
    | succ k => simp only [List.replicate_succ, List.getD_cons_succ]; exact ih k

/-! ### Built runs, reachability, and the run invariant -/

/-- Relational model of one question spec as produced by `_build_run`
(main.py lines 336-347): the correct id comes from the eligible pool, two
distractors are drawn by `rng.sample(distractors, 2)` — i.e. without
replacement from the eligible ids minus the correct one; ids are unique in
the dataset, so the two draws are distinct values — and the display order
is a `rng.shuffle` permutation of `[cid, d1, d2]`.  The `SystemRandom`
draws themselves are abstracted by the existentials. -/
def BuildQSpec (eligibleIds : List String) (q : QSpec) : Prop :=
  q.cid ∈ eligibleIds ∧
    ∃ d1 d2, d1 ∈ eligibleIds ∧ d2 ∈ eligibleIds ∧ d1 ≠ q.cid ∧ d2 ≠ q.cid ∧ d1 ≠ d2 ∧
      q.opt.Perm [q.cid, d1, d2]

/-- Relational model of `_build_run`'s output (main.py lines 326-364): score
and cursor at zero, 15 question specs each built as `BuildQSpec`, and empty
answer/correctness arrays. -/
def BuiltRun (eligibleIds : List String) (r : RunP) : Prop :=
  r.score = 0 ∧ r.next = 0 ∧
    r.ans = List.replicate QUESTIONS_PER_LEVEL none ∧
    r.ok = List.replicate QUESTIONS_PER_LEVEL none ∧
    r.qs.length = QUESTIONS_PER_LEVEL ∧
    ∀ q ∈ r.qs, BuildQSpec eligibleIds q

/-- One request-level operation on a run, as far as it produces a new signed
payload: a successful answer, a successful question view, or a successful
resume.  Failed calls return an error response without an updated token, so
they leave the client's run unchanged and add no new reachable state. -/
inductive Step (ds : List ValidChar) : RunP → RunP → Prop where
  | answer (now : Int) (r : RunP) (pos : Int) (choice_id : String) (out : AnswerOut)
      (h : api_run_answer ds now r pos choice_id = Except.ok out) : Step ds r out.run
  | question (r : RunP) (pos : Int) (r2 : RunP) (q : QView)
      (h : api_run_question ds r pos = Except.ok (r2, q)) : Step ds r r2
  | resume (now : Int) (r : RunP) (out : ResumeOut)
      (h : api_run_resume ds now r = Except.ok out) : Step ds r out.run

/-- Runs reachable from a starting payload by any sequence of operations. -/
def Reachable (ds : List ValidChar) : RunP → RunP → Prop :=
  Relation.ReflTransGen (Step ds)

/-- The run-state invariant of the spec: array lengths, cursor bounds,
answers/correctness filled exactly below the cursor, score equal to the
number of correct answers, and well-formed option lists. -/
structure RunInv (r : RunP) : Prop where
  len_qs : r.qs.length = QUESTIONS_PER_LEVEL
  len_ans : r.ans.length = QUESTIONS_PER_LEVEL
  len_ok : r.ok.length = QUESTIONS_PER_LEVEL
  next_nonneg : 0 ≤ r.next
  next_le : r.next ≤ (QUESTIONS_PER_LEVEL : Int)
  ans_iff : ∀ i, i < QUESTIONS_PER_LEVEL → ((r.ans.getD i none).isSome ↔ (i : Int) < r.next)
  ok_iff : ∀ i, i < QUESTIONS_PER_LEVEL → ((r.ok.getD i none).isSome ↔ (i : Int) < r.next)
  score_eq : r.score = (countTrue r.ok : Int)
  qs_good : ∀ q ∈ r.qs, q.cid ∈ q.opt ∧ q.opt.length = 3 ∧ q.opt.Nodup

/-- Inversion of a successful answer call: all four checks passed and the
output payload is the input with the one-slot update, score bump and cursor
advance of main.py lines 628-633. -/
theorem api_run_answer_ok_inv {ds : List ValidChar} {now : Int} {r : RunP} {pos : Int}
    {choice_id : String} {out : AnswerOut}
    (h : api_run_answer ds now r pos choice_id = Except.ok out) :
    pos = r.next ∧ 0 ≤ pos ∧ pos < (QUESTIONS_PER_LEVEL : Int) ∧
      ∃ qspec, r.qs.get? pos.toNat = some qspec ∧ choice_id ∈ qspec.opt ∧
        out.run =
          { r with
            ans := r.ans.set pos.toNat (some choice_id),
            ok := r.ok.set pos.toNat (some (decide (choice_id = qspec.cid))),
            score := if decide (choice_id = qspec.cid) then r.score + 1 else r.score,
            next := r.next + 1 } ∧
        out.done = decide ((QUESTIONS_PER_LEVEL : Int) ≤ r.next + 1) ∧
        out.summary = (if decide ((QUESTIONS_PER_LEVEL : Int) ≤ r.next + 1) then
          some (summary_from_run now out.run) else none) := by
  unfold api_run_answer at h
  split at h
  · exact absurd h (by simp)
  split at h
  · exact absurd h (by simp)
  next hpos =>
  split at h
  · exact absurd h (by simp)
  next hbound =>
  dsimp only at h
  split at h
  · exact absurd h (by simp)
  next qspec hq =>
  split at h
  · exact absurd h (by simp)
  next hmem =>
  split at h
  · exact absurd h (by simp)
  next q hq2 =>
  refine ⟨by omega, by omega, by omega, qspec, hq, by simpa using hmem, ?_⟩
  have hout := (Except.ok.injEq _ _).mp h
  subst hout
  simp

/-- Inversion of a successful question view: the payload is returned as-is
(the handler never mutates it, main.py lines 577-588). -/
theorem api_run_question_ok_run {ds : List ValidChar} {r : RunP} {pos : Int} {r2 : RunP}
    {q : QView} (h : api_run_question ds r pos = Except.ok (r2, q)) : r2 = r := by
  unfold api_run_question at h
  split at h
  · exact absurd h (by simp)
  split at h
  · exact absurd h (by simp)
  split at h
  · exact absurd h (by simp)
  have := (Except.ok.injEq _ _).mp h
  exact (congrArg Prod.fst this).symm

/-- Inversion of a successful resume: the payload is returned as-is
(main.py lines 552-559). -/
theorem api_run_resume_ok_run {ds : List ValidChar} {now : Int} {r : RunP} {out : ResumeOut}
    (h : api_run_resume ds now r = Except.ok out) : out.run = r := by
  unfold api_run_resume at h
  dsimp only at h
  split at h
  · exact absurd h (by simp)
  have := (Except.ok.injEq _ _).mp h
  subst this
  rfl

/-- Any single operation can only keep or increase the cursor and the score. -/
theorem step_mono {ds : List ValidChar} {r r2 : RunP} (h : Step ds r r2) :
    r.next ≤ r2.next ∧ r.score ≤ r2.score := by
  cases h with
  | answer now r pos choice_id out hok =>
    obtain ⟨-, -, -, qspec, -, -, hrun, -, -⟩ := api_run_answer_ok_inv hok
    rw [hrun]
    refine ⟨by simp only; omega, ?_⟩
    simp only
    split <;> omega
  | question r pos r2 q hok =>
    rw [api_run_question_ok_run hok]
    exact ⟨le_refl _, le_refl _⟩
  | resume now r out hok =>
    rw [api_run_resume_ok_run hok]
    exact ⟨le_refl _, le_refl _⟩

/-- A freshly built run satisfies the invariant. -/
theorem builtRun_inv {eligibleIds : List String} {r : RunP} (hb : BuiltRun eligibleIds r) :
    RunInv r := by
  obtain ⟨hscore, hnext, hans, hok, hlen, hqs⟩ := hb
  refine ⟨hlen, by rw [hans]; simp, by rw [hok]; simp, by rw [hnext], by rw [hnext]; norm_num,
    ?_, ?_, ?_, ?_⟩
  · intro i hi
    rw [hans, hnext]
    simp [getD_replicate_none_str]
  · intro i hi
    rw [hok, hnext]
    simp [getD_replicate_none]
  · rw [hscore, hok, countTrue_replicate]
    simp
  · intro q hq
    obtain ⟨hcid, d1, d2, hd1, hd2, hne1, hne2, hne3, hperm⟩ := hqs q hq
    refine ⟨?_, ?_, ?_⟩
    · exact hperm.mem_iff.mpr (by simp)
    · rw [hperm.length_eq]; rfl
    · rw [hperm.nodup_iff]
      refine List.nodup_cons.mpr ⟨?_, List.nodup_cons.mpr ⟨?_, List.nodup_singleton _⟩⟩
      · intro hc
        rcases List.mem_cons.mp hc with hc | hc
        · exact hne1 hc.symm
        · rcases List.mem_singleton.mp hc with hc
          exact hne2 hc.symm
      · intro hc
        rcases List.mem_singleton.mp hc with hc
        exact hne3 hc

/-- One operation preserves the run invariant. -/
theorem step_inv {ds : List ValidChar} {r r2 : RunP} (hinv : RunInv r) (h : Step ds r r2) :
    RunInv r2 := by
  cases h with
  | answer now r pos choice_id out hok =>
    obtain ⟨hpos, hpos0, hposlt, qspec, hget, hmem, hrun, -, -⟩ := api_run_answer_ok_inv hok
    subst hpos
    set p := r.next.toNat with hp
    have hpn : (p : Int) = r.next := Int.toNat_of_nonneg hinv.next_nonneg
    have hplt : p < QUESTIONS_PER_LEVEL := by
      have : (QUESTIONS_PER_LEVEL : Int) = 15 := by norm_num [QUESTIONS_PER_LEVEL]
      omega
    have hoknone : r.ok.getD p none = none := by
      have h2 := hinv.ok_iff p hplt
      rw [hpn] at h2
      have h3 : ¬ (r.ok.getD p none).isSome = true := by
        rw [h2]
        exact lt_irrefl _
      exact Option.not_isSome_iff_eq_none.mp h3
    rw [hrun]
    refine ⟨by simpa using hinv.len_qs, by simpa using hinv.len_ans, by simpa using hinv.len_ok,
      ?_, ?_, ?_, ?_, ?_, ?_⟩
    · simp only
      omega
    · simp only
      omega
    · intro i hi
      simp only
      by_cases hip : i = p
      · subst hip
        rw [getD_set_self _ _ _ _ (by rw [hinv.len_ans]; exact hplt)]
        simp
        omega
      · rw [getD_set_ne _ _ _ _ _ (fun he => hip he.symm)]
        have := hinv.ans_iff i hi
        have hip2 : (i : Int) ≠ r.next := by
          intro he
          apply hip
          omega
        constructor
        · intro hs
          have := this.mp hs
          omega
        · intro hlt
          exact this.mpr (by omega)
    · intro i hi
      simp only
      by_cases hip : i = p
      · subst hip
        rw [getD_set_self _ _ _ _ (by rw [hinv.len_ok]; exact hplt)]
        simp
        omega
      · rw [getD_set_ne _ _ _ _ _ (fun he => hip he.symm)]
        have := hinv.ok_iff i hi
        have hip2 : (i : Int) ≠ r.next := by
          intro he
          apply hip
          omega
        constructor
        · intro hs
          have := this.mp hs
          omega
        · intro hlt
          exact this.mpr (by omega)
    · simp only
      rw [countTrue_set _ _ _ (by rw [hinv.len_ok]; exact hplt) hoknone]
      rw [hinv.score_eq]
      by_cases hc : choice_id = qspec.cid <;> simp [hc]
    · intro q hq
      exact hinv.qs_good q hq
  | question r pos r2 q hok =>
    rw [api_run_question_ok_run hok]
    exact hinv
  | resume now r out hok =>
    rw [api_run_resume_ok_run hok]
    exact hinv

/-- The invariant holds at every reachable run. -/
theorem reachable_inv {ds : List ValidChar} {eligibleIds : List String} {r0 r : RunP}
    (hb : BuiltRun eligibleIds r0) (hr : Reachable ds r0 r) : RunInv r := by
  induction hr with
  | refl => exact builtRun_inv hb
  | tail hstep hinv ih => exact step_inv ih hinv

/-! ### Auxiliary facts for the level builder -/

/-- The fill loop grows the chunk by exactly one element per iteration, so
with fuel `15 - chunk.length` it reaches exactly 15 elements. -/
theorem fill_chunk_length (rand : Nat → Nat) (ordered : List ValidChar) (fuel k : Nat)
    (chunk pool : List ValidChar) (h : chunk.length + fuel = QUESTIONS_PER_LEVEL) :
    (fill_chunk rand ordered k fuel chunk pool).length = QUESTIONS_PER_LEVEL := by
  induction fuel generalizing k chunk pool with
  | zero => simpa using h
  | succ m ih =>
    unfold fill_chunk
    split
    next hge =>
      have h15 : QUESTIONS_PER_LEVEL = 15 := rfl
      omega
    next hlt =>
      split
      · apply ih
        simp
        omega
      · apply ih
        simp
        omega

/-! ### Concrete fixtures

Small concrete datasets and runs used to witness the theorems below on
evaluable inputs. -/

/-- Fixture character. -/
def chAna : ValidChar :=
  { id := "ana", name := "Ana", image_rel := "img/ana.png",
    profile_flat := [("Beruf", "Pilotin")], source := ⟨"", "wiki"⟩ }

/-- Fixture character. -/
def chBen : ValidChar :=
  { id := "ben", name := "Ben", image_rel := "img/ben.png",
    profile_flat := [("Beruf", "Koch")], source := ⟨"", "wiki"⟩ }

/-- Fixture character. -/
def chCid : ValidChar :=
  { id := "cid", name := "Cid", image_rel := "img/cid.png",
    profile_flat := [("Beruf", "Maler")], source := ⟨"", "wiki"⟩ }

/-- Fixture dataset of three valid, eligible characters. -/
def dsW : List ValidChar := [chAna, chBen, chCid]

/-- Fixture character whose five profile values are the English word
`"unknown"` — which `_unknown_count` does not count. -/
def chUnknown : ValidChar :=
  { id := "dana", name := "Dana", image_rel := "img/dana.png",
    profile_flat :=
      [("Alter", "unknown"), ("Beruf", "unknown"), ("Ort", "unknown"),
       ("Team", "unknown"), ("Spezies", "unknown")],
    source := ⟨"", ""⟩ }

/-- Fixture valid-characters list containing `chUnknown`. -/
def validW : List ValidChar := [chUnknown, chAna, chBen, chCid]

/-- Fixture fresh run over `dsW` (as `_build_run` could produce for a level
whose character ids are all `"ana"`). -/
def runW : RunP :=
  { v := 1, rid := "r1", lvl := 1, t0 := 0, score := 0, next := 0,
    qs := List.replicate QUESTIONS_PER_LEVEL { cid := "ana", opt := ["ana", "ben", "cid"] },
    ans := List.replicate QUESTIONS_PER_LEVEL none,
    ok := List.replicate QUESTIONS_PER_LEVEL none }

/-- Fixture completed run (all 15 questions answered correctly). -/
def runDone : RunP :=
  { v := 1, rid := "r2", lvl := 1, t0 := 0, score := 15, next := 15,
    qs := List.replicate QUESTIONS_PER_LEVEL { cid := "ana", opt := ["ana", "ben", "cid"] },
    ans := List.replicate QUESTIONS_PER_LEVEL (some "ana"),
    ok := List.replicate QUESTIONS_PER_LEVEL (some true) }

/-- Fixture digest-hex function (stands for `sha256(...).hexdigest()`). -/
def hexW : List Nat → String := fun _ => "ff"

/-- Fixture digest-bytes function (stands for `sha256(...).digest()`). -/
def digestW : String → List Nat := fun _ => [1, 2, 3, 4, 5, 6, 7, 8]

/-- Fixture shuffle implementation (identity permutation). -/
def shuffleW : Nat → List String → List String := fun _ l => l

/-- Fixture seeded-draw implementation. -/
def randW : Nat → Nat → Nat := fun _ _ => 0

/-- Fixture serializer text output (a 20-character URL-safe token). -/
def encW : JVal → String := fun _ => "aaaaaaaaaaaaaaaaaaaa"

/-! ### Claims -/

/-- Claim C5 counterexample: the claim says a character is eligible only if
fewer than 5 remaining profile values equal "unbekannt" **or "unknown"**
case-insensitively, but `_unknown_count` (main.py line 228) compares against
`"unbekannt"` only.  `chUnknown` has five values equal to `"unknown"`
(so the claim says it must not be eligible), yet `get_eligible_characters`
keeps it. -/
theorem eligible_unknown_counterexample :
    get_eligible_characters validW = Except.ok [chUnknown, chAna, chBen, chCid] ∧
      unknown_count chUnknown.profile_flat = 0 ∧
      spec_unknown_count chUnknown.profile_flat = 5 ∧
      ¬ spec_unknown_count chUnknown.profile_flat < UNKNOWN_LIMIT := by
  refine ⟨rfl, rfl, rfl, by decide⟩

/-- Claim C5 (amended): a valid character is counted as eligible exactly when
fewer than 5 of its remaining profile values equal `"unbekannt"`
case-insensitively (the English `"unknown"` is not counted). -/
theorem eligible_unknown_amended (valid : List ValidChar) (e : List ValidChar) (c : ValidChar)
    (h : get_eligible_characters valid = Except.ok e) :
    c ∈ e ↔ c ∈ valid ∧ unknown_count c.profile_flat < UNKNOWN_LIMIT := by
  unfold get_eligible_characters at h
  dsimp only at h
  split at h
  · exact absurd h (by simp)
  · have he := (Except.ok.injEq _ _).mp h
    subst he
    simp [List.mem_filter]

/-- Claim C5 witness: the amended statement applied to the concrete list. -/
theorem eligible_unknown_amended_witness :
    get_eligible_characters validW = Except.ok [chUnknown, chAna, chBen, chCid] ∧
      (chUnknown ∈ [chUnknown, chAna, chBen, chCid] ↔
        chUnknown ∈ validW ∧ unknown_count chUnknown.profile_flat < UNKNOWN_LIMIT) :=
  ⟨rfl, eligible_unknown_amended validW [chUnknown, chAna, chBen, chCid] chUnknown rfl⟩

/-- Claim C4: with no operator-supplied secret, level generation is a
deterministic function of the dataset bytes (and the eligible set computed
from them): two independent computations from the same bytes agree, and the
master secret feeding every `_stable_rng` seed is exactly the SHA-256 hex
digest of the dataset bytes.  The digest and the seeded generators are
deterministic algorithms, passed here as plain functions; no other input
(time, system randomness) enters the pipeline. -/
theorem level_determinism (sha256hex : List Nat → String) (digest : String → List Nat)
    (shuffleImpl : Nat → List String → List String) (randImpl : Nat → Nat → Nat)
    (envSecret : Option String) (henv : pyStrip (envSecret.getD "") = "")
    (b1 b2 : List Nat) (e1 e2 : List ValidChar) (hb : b1 = b2) (he : e1 = e2) :
    levels_from_dataset sha256hex digest shuffleImpl randImpl envSecret b1 e1 =
      levels_from_dataset sha256hex digest shuffleImpl randImpl envSecret b2 e2 ∧
      derive_secret_from_dataset_bytes sha256hex envSecret b1 =
        (if sha256hex b1 = "" then "paw-quiz-fallback-secret" else sha256hex b1) := by
  subst hb
  subst he
  refine ⟨rfl, ?_⟩
  unfold derive_secret_from_dataset_bytes
  rw [henv]
  simp

/-- Claim C4 witness: the determinism statement evaluated on concrete inputs
with no operator secret. -/
theorem level_determinism_witness :
    pyStrip ((none : Option String).getD "") = "" ∧
      levels_from_dataset hexW digestW shuffleW randW none [0] dsW =
        levels_from_dataset hexW digestW shuffleW randW none [0] dsW ∧
      derive_secret_from_dataset_bytes hexW none [0] =
        (if hexW [0] = "" then "paw-quiz-fallback-secret" else hexW [0]) :=
  ⟨by decide, level_determinism hexW digestW shuffleW randW none (by decide) [0] [0] dsW dsW rfl rfl⟩

/-- Claim C8: for at least 3 eligible characters the computed level count is
`max(1, ceil(eligible_count / 15))` and every generated level carries exactly
15 character ids (short final chunks are topped up by the fill loop). -/
theorem level_count_and_size (digest : String → List Nat)
    (shuffleImpl : Nat → List String → List String) (randImpl : Nat → Nat → Nat)
    (secret : String) (eligible : List ValidChar) (h3 : 3 ≤ eligible.length) :
    (get_levels digest shuffleImpl randImpl secret eligible).length =
      max 1 ((eligible.length + 14) / 15) ∧
      ∀ L ∈ get_levels digest shuffleImpl randImpl secret eligible,
        L.character_ids.length = QUESTIONS_PER_LEVEL := by
  have hQ : QUESTIONS_PER_LEVEL = 15 := rfl
  constructor
  · unfold get_levels
    simp only [List.length_map, List.length_range, QUESTIONS_PER_LEVEL]
    omega
  · intro L hL
    unfold get_levels at hL
    simp only [List.mem_map, List.mem_range] at hL
    obtain ⟨lv0, hlv0, hLdef⟩ := hL
    subst hLdef
    dsimp only
    simp only [List.length_map]
    generalize ((shuffleImpl (stable_seed digest secret ["global-order"])
        (eligible.map (fun c => c.id))).filterMap
        (fun i => eligible.find? (fun c => c.id = i))) = ordered
    split
    next hshort => exact fill_chunk_length _ _ _ _ _ _ (by omega)
    next hfull =>
      have ht := List.length_take QUESTIONS_PER_LEVEL
        (ordered.drop ((lv0 + 1 - 1) * QUESTIONS_PER_LEVEL))
      omega

/-- Claim C8 witness: three eligible characters yield one level of 15 ids. -/
theorem level_count_and_size_witness :
    3 ≤ dsW.length ∧
      (get_levels digestW shuffleW randW "s" dsW).length = max 1 ((dsW.length + 14) / 15) :=
  ⟨by decide, (level_count_and_size digestW shuffleW randW "s" dsW (by decide)).1⟩

/-- Claim C1: answering the frontier question with one of its option ids
records the choice and its correctness at that position, bumps the score
exactly on a correct choice, advances `next` by one, leaves the questions
untouched, and returns a summary iff the run just became complete.  The
hypotheses are what `_validate_run_token` guarantees (`validRun`), the
claim's premise `next < 15`, the choice being among the question's options,
its slug shape (option ids of server-issued runs are character ids that
matched `ID_RE` in `get_valid_characters`, so this holds for every genuine
option id), and the question's character being present in the dataset the
run was built from. -/
theorem answer_records_choice (ds : List ValidChar) (now : Int) (r : RunP) (choice_id : String)
    (hv : validRun r) (hlt : r.next < (QUESTIONS_PER_LEVEL : Int))
    (hslug : idRe choice_id = true)
    (hmem : choice_id ∈ (r.qs.getD r.next.toNat dummyQ).opt)
    (hfind : (find_character ds (r.qs.getD r.next.toNat dummyQ).cid).isSome = true) :
    ∃ out, api_run_answer ds now r r.next choice_id = Except.ok out ∧
      out.run.ans = r.ans.set r.next.toNat (some choice_id) ∧
      out.run.ok = r.ok.set r.next.toNat
        (some (decide (choice_id = (r.qs.getD r.next.toNat dummyQ).cid))) ∧
      out.run.score = (if choice_id = (r.qs.getD r.next.toNat dummyQ).cid then r.score + 1
        else r.score) ∧
      out.run.next = r.next + 1 ∧
      out.run.qs = r.qs ∧
      (out.summary.isSome ↔ r.next + 1 = (QUESTIONS_PER_LEVEL : Int)) ∧
      out.done = decide ((QUESTIONS_PER_LEVEL : Int) ≤ r.next + 1) := by
  obtain ⟨hq, ha, ho, h0, hle⟩ := hv
  have hQ : (QUESTIONS_PER_LEVEL : Int) = 15 := rfl
  have hpn : (r.next.toNat : Int) = r.next := Int.toNat_of_nonneg h0
  have hget := get?_eq_some_getD r.qs r.next.toNat dummyQ (by rw [hq]; omega)
  obtain ⟨ch, hch⟩ := Option.isSome_iff_exists.mp hfind
  unfold api_run_answer
  rw [if_neg (show ¬ ¬ idRe choice_id = true by rw [hslug]; simp)]
  rw [if_neg (show ¬ r.next ≠ r.next by simp)]
  rw [if_neg (show ¬ (r.next < 0 ∨ (QUESTIONS_PER_LEVEL : Int) ≤ r.next) by omega)]
  dsimp only
  rw [hget]
  dsimp only
  rw [if_neg (show ¬ choice_id ∉ (r.qs.getD r.next.toNat dummyQ).opt from not_not_intro hmem)]
  unfold question_payload
  dsimp only
  rw [if_neg (show ¬ (r.next < 0 ∨ (r.qs.length : Int) ≤ r.next) by rw [hq]; omega)]
  rw [hch]
  dsimp only
  refine ⟨_, rfl, rfl, rfl, ?_, rfl, rfl, ?_, rfl⟩
  · by_cases hc : choice_id = (r.qs.getD r.next.toNat dummyQ).cid <;> simp [hc]
  · by_cases h15 : (QUESTIONS_PER_LEVEL : Int) ≤ r.next + 1
    · simp only [h15, decide_eq_true_eq, if_pos, decide_True]
      constructor
      · intro _
        omega
      · intro _
        simp [h15]
    · have : ¬ r.next + 1 = (QUESTIONS_PER_LEVEL : Int) := by omega
      simp [h15, this]

/-- Claim C1 witness: answering question 0 of the fixture run with the
correct id succeeds. -/
theorem answer_records_choice_witness :
    validRun runW ∧ runW.next < (QUESTIONS_PER_LEVEL : Int) ∧
      isOkE (api_run_answer dsW 0 runW runW.next "ana") = true := by
  refine ⟨by decide, by decide, ?_⟩
  obtain ⟨out, hout, -⟩ :=
    answer_records_choice dsW 0 runW "ana" (by decide) (by decide) (by decide) (by decide)
      (by decide)
  rw [hout]
  rfl

/-- Claim C2: on any validated payload, answering at a position different
from `next` always fails, and answering the question at any in-range
position with a choice id that is not among that question's option ids
always fails.  Failed calls return an error response without an updated
token (main.py `_json_error`), so the run state held by the token is
untouched — the model returns no successor payload on the error path. -/
theorem answer_rejects_bad (ds : List ValidChar) (now : Int) (r : RunP) (hv : validRun r) :
    (∀ pos choice_id, pos ≠ r.next → isOkE (api_run_answer ds now r pos choice_id) = false) ∧
      (∀ pos choice_id, 0 ≤ pos → pos < (QUESTIONS_PER_LEVEL : Int) →
        choice_id ∉ (r.qs.getD pos.toNat dummyQ).opt →
        isOkE (api_run_answer ds now r pos choice_id) = false) := by
  obtain ⟨hq, ha, ho, h0, hle⟩ := hv
  have hQ : (QUESTIONS_PER_LEVEL : Int) = 15 := rfl
  have part1 : ∀ pos choice_id, pos ≠ r.next →
      isOkE (api_run_answer ds now r pos choice_id) = false := by
    intro pos choice_id hne
    unfold api_run_answer
    by_cases hid : idRe choice_id = true
    · rw [if_neg (show ¬ ¬ idRe choice_id = true by rw [hid]; simp)]
      rw [if_pos hne]
      rfl
    · rw [if_pos (show ¬ idRe choice_id = true from hid)]
      rfl
  refine ⟨part1, ?_⟩
  intro pos choice_id hpos0 hposlt hnotmem
  by_cases hne : pos = r.next
  · rw [hne] at hpos0 hposlt hnotmem ⊢
    unfold api_run_answer
    by_cases hid : idRe choice_id = true
    · rw [if_neg (show ¬ ¬ idRe choice_id = true by rw [hid]; simp)]
      rw [if_neg (show ¬ r.next ≠ r.next by simp)]
      rw [if_neg (show ¬ (r.next < 0 ∨ (QUESTIONS_PER_LEVEL : Int) ≤ r.next) by omega)]
      dsimp only
      rw [get?_eq_some_getD r.qs r.next.toNat dummyQ (by rw [hq]; omega)]
      dsimp only
      rw [if_pos hnotmem]
      rfl
    · rw [if_pos (show ¬ idRe choice_id = true from hid)]
      rfl
  · exact part1 pos choice_id hne

/-- Claim C2 witness: the two rejection modes on the fixture run — a stale
position, and the frontier position with a foreign choice id. -/
theorem answer_rejects_bad_witness :
    (5 : Int) ≠ runW.next ∧ isOkE (api_run_answer dsW 0 runW 5 "ana") = false ∧
      "zz" ∉ (runW.qs.getD (0 : Int).toNat dummyQ).opt ∧
      isOkE (api_run_answer dsW 0 runW 0 "zz") = false := by
  refine ⟨by decide, ?_, by decide, ?_⟩
  · exact (answer_rejects_bad dsW 0 runW (by decide)).1 5 "ana" (by decide)
  · exact (answer_rejects_bad dsW 0 runW (by decide)).2 0 "zz" (by decide) (by decide) (by decide)

/-- Claim C10: once a run is complete (`next = 15`), every answer attempt
fails: a position other than 15 trips the `pos == next` check, position 15
trips the `pos < 15` bound, and a malformed choice id is rejected even
earlier — so no answer can ever be recorded on a completed run, and no
updated token is issued. -/
theorem answer_complete_rejects (ds : List ValidChar) (now : Int) (r : RunP)
    (hv : validRun r) (hdone : r.next = (QUESTIONS_PER_LEVEL : Int)) :
    ∀ pos choice_id, isOkE (api_run_answer ds now r pos choice_id) = false := by
  obtain ⟨hq, ha, ho, h0, hle⟩ := hv
  have hQ : (QUESTIONS_PER_LEVEL : Int) = 15 := rfl
  intro pos choice_id
  unfold api_run_answer
  by_cases hid : idRe choice_id = true
  · rw [if_neg (show ¬ ¬ idRe choice_id = true by rw [hid]; simp)]
    by_cases hne : pos = r.next
    · rw [if_neg (show ¬ pos ≠ r.next by simp [hne])]
      rw [if_pos (show pos < 0 ∨ (QUESTIONS_PER_LEVEL : Int) ≤ pos by omega)]
      rfl
    · rw [if_pos hne]
      rfl
  · rw [if_pos (show ¬ idRe choice_id = true from hid)]
    rfl

/-- Claim C10 witness: the completed fixture run rejects an answer at an
interior position and at position 15. -/
theorem answer_complete_rejects_witness :
    runDone.next = (QUESTIONS_PER_LEVEL : Int) ∧
      isOkE (api_run_answer dsW 0 runDone 3 "ana") = false ∧
      isOkE (api_run_answer dsW 0 runDone 15 "ana") = false := by
  refine ⟨by decide, ?_, ?_⟩
  · exact answer_complete_rejects dsW 0 runDone (by decide) (by decide) 3 "ana"
  · exact answer_complete_rejects dsW 0 runDone (by decide) (by decide) 15 "ana"

/-- Claim C9: viewing any permitted position (`0 ≤ pos ≤ next`, `pos < 15`)
succeeds when the question's character is in the dataset, and the view
endpoint never produces a payload different from its input — the re-issued
token carries the same content, freshly signed; in particular viewing an
already-answered position changes nothing. -/
theorem question_preserves_run (ds : List ValidChar) (r : RunP) (pos : Int)
    (hv : validRun r) (h0 : 0 ≤ pos) (hle : pos ≤ r.next)
    (hlt : pos < (QUESTIONS_PER_LEVEL : Int))
    (hfind : (find_character ds (r.qs.getD pos.toNat dummyQ).cid).isSome = true) :
    isOkE (api_run_question ds r pos) = true ∧
      ∀ r2 q, api_run_question ds r pos = Except.ok (r2, q) → r2 = r := by
  obtain ⟨hq, ha, ho, hn0, hnle⟩ := hv
  have hQ : (QUESTIONS_PER_LEVEL : Int) = 15 := rfl
  obtain ⟨ch, hch⟩ := Option.isSome_iff_exists.mp hfind
  refine ⟨?_, fun r2 q h => api_run_question_ok_run h⟩
  unfold api_run_question
  rw [if_neg (show ¬ (pos < 0 ∨ r.next < pos) by omega)]
  rw [if_neg (show ¬ (QUESTIONS_PER_LEVEL : Int) ≤ pos by omega)]
  unfold question_payload
  rw [if_neg (show ¬ (pos < 0 ∨ (r.qs.length : Int) ≤ pos) by rw [hq]; omega)]
  dsimp only
  rw [hch]
  rfl

/-- Claim C9 witness: viewing question 0 of the fixture run succeeds and
returns the same payload. -/
theorem question_preserves_run_witness :
    validRun runW ∧ (0 : Int) ≤ 0 ∧ (0 : Int) ≤ runW.next ∧
      isOkE (api_run_question dsW runW 0) = true := by
  refine ⟨by decide, by decide, by decide, ?_⟩
  exact (question_preserves_run dsW runW 0 (by decide) (by decide) (by decide) (by decide)
    (by decide)).1

/-- Claim C3: at every run reachable from a freshly built run by any
sequence of operations (failed calls return no updated token and hence add
no states), the answers and correctness slots are filled exactly below the
cursor, the score equals the number of `true` correctness entries, each
question's correct id is among its 3 pairwise-distinct option ids, and no
single further operation can decrease the cursor or the score. -/
theorem reachable_invariants (ds : List ValidChar) (eligibleIds : List String) (r0 r : RunP)
    (hb : BuiltRun eligibleIds r0) (hr : Reachable ds r0 r) :
    (∀ i, i < QUESTIONS_PER_LEVEL →
        (((r.ans.getD i none).isSome ↔ (i : Int) < r.next) ∧
          ((r.ok.getD i none).isSome ↔ (i : Int) < r.next))) ∧
      r.score = (countTrue r.ok : Int) ∧
      (∀ q ∈ r.qs, q.cid ∈ q.opt ∧ q.opt.length = 3 ∧ q.opt.Nodup) ∧
      (∀ r2, Step ds r r2 → r.next ≤ r2.next ∧ r.score ≤ r2.score) := by
  have hinv := reachable_inv hb hr
  exact ⟨fun i hi => ⟨hinv.ans_iff i hi, hinv.ok_iff i hi⟩, hinv.score_eq, hinv.qs_good,
    fun r2 hs => step_mono hs⟩

/-- Claim C3 witness: the fixture run is a built run (over the eligible ids
of `dsW`) and the score invariant instantiated at it. -/
theorem reachable_invariants_witness :
    BuiltRun ["ana", "ben", "cid"] runW ∧ runW.score = (countTrue runW.ok : Int) := by
  have hb : BuiltRun ["ana", "ben", "cid"] runW := by
    refine ⟨rfl, rfl, rfl, rfl, rfl, ?_⟩
    intro q hq
    have hq2 := List.eq_of_mem_replicate hq
    subst hq2
    exact ⟨by decide, "ben", "cid", by decide, by decide, by decide, by decide, by decide,
      List.Perm.refl _⟩
  exact ⟨hb,
    (reachable_invariants dsW ["ana", "ben", "cid"] runW runW hb
      Relation.ReflTransGen.refl).2.1⟩

/-- Claim C6: run-token decoding, classified by outcome, agrees condition by
condition with the spec's taxonomy — it rejects garbage shapes, bad
signatures, stale signatures, wrong type tags, missing required fields,
arrays that are not exactly 15 long, and out-of-range `next` cursors, each
with the error category the spec names ("expired" vs "invalid" vs
"incomplete"), and succeeds exactly otherwise. -/
theorem token_decode_classification (t : RawToken) (maxAge now : Int) :
    resultClass (validate_run_token t maxAge now) = spec_token_class t maxAge := by
  unfold validate_run_token spec_token_class validate_run_payload
  repeat' first
    | rfl
    | split
    | dsimp only
  all_goals simp_all

/-- Round-trip of the payload checks: a structurally valid run payload
passes `_validate_run_token`'s field checks and is returned unchanged (the
int-normalization rewrites each of `lvl`, `score`, `next`, `t0` with its own
value). -/
theorem validate_payload_roundtrip (r : RunP) (now : Int)
    (hq : r.qs.length = QUESTIONS_PER_LEVEL) (ha : r.ans.length = QUESTIONS_PER_LEVEL)
    (ho : r.ok.length = QUESTIONS_PER_LEVEL) (h0 : 0 ≤ r.next)
    (hle : r.next ≤ (QUESTIONS_PER_LEVEL : Int)) :
    validate_run_payload (runPayloadKVs r) now = Except.ok (JVal.obj (runPayloadKVs r)) := by
  have hQ : (QUESTIONS_PER_LEVEL : Int) = 15 := rfl
  have h1 : neededRunKeys.all (fun k => (objGet (runPayloadKVs r) k).isSome) = true := rfl
  have h2 : isList15 (objGet (runPayloadKVs r) "qs") = true := by
    show isList15 (some (JVal.arr (r.qs.map qspecToJ))) = true
    unfold isList15
    dsimp only
    rw [List.length_map, hq]
    simp
  have h3 : isList15 (objGet (runPayloadKVs r) "ans") = true := by
    show isList15 (some (JVal.arr (r.ans.map (fun a =>
      match a with
      | some s => JVal.str s
      | none => JVal.null)))) = true
    unfold isList15
    dsimp only
    rw [List.length_map, ha]
    simp
  have h4 : isList15 (objGet (runPayloadKVs r) "ok") = true := by
    show isList15 (some (JVal.arr (r.ok.map (fun o =>
      match o with
      | some b => JVal.bool b
      | none => JVal.null)))) = true
    unfold isList15
    dsimp only
    rw [List.length_map, ho]
    simp
  have h5 : objGet (runPayloadKVs r) "next" = some (JVal.int r.next) := rfl
  unfold validate_run_payload
  rw [if_neg (show ¬ ¬ neededRunKeys.all (fun k => (objGet (runPayloadKVs r) k).isSome) = true
    by rw [h1]; simp)]
  rw [if_neg (show ¬ ¬ isList15 (objGet (runPayloadKVs r) "qs") = true by rw [h2]; simp)]
  rw [if_neg (show ¬ ¬ isList15 (objGet (runPayloadKVs r) "ans") = true by rw [h3]; simp)]
  rw [if_neg (show ¬ ¬ isList15 (objGet (runPayloadKVs r) "ok") = true by rw [h4]; simp)]
  simp only [h5, Option.getD_some, safe_int]
  rw [if_neg (show ¬ (r.next < 0 ∨ (QUESTIONS_PER_LEVEL : Int) < r.next) by omega)]
  rfl

/-- Claim C7: encoding a well-formed run payload and immediately decoding
the resulting token yields the payload unchanged — every field (`rid`,
`lvl`, `t0`, `score`, `next`, `qs`, `ans`, `ok`) survives the round trip.
`enc` abstracts the serializer's text output; the freshly signed token
verifies and has age 0, and the hypotheses are the payload's structural
well-formedness, the token text's URL-safe shape, and a non-negative
max-age. -/
theorem run_token_roundtrip (enc : JVal → String) (r : RunP) (maxAge now : Int)
    (hv : validRun r)
    (htext : tokenRe (enc (JVal.obj [("k", JVal.str "run"), ("p", runToJ r)])) = true)
    (hage : 0 ≤ maxAge) :
    validate_run_token (encode_run enc r) maxAge now = Except.ok (runToJ r) := by
  obtain ⟨hq, ha, ho, h0, hle⟩ := hv
  unfold validate_run_token encode_run
  dsimp only
  rw [if_neg (show ¬ ¬ tokenRe (enc (JVal.obj [("k", JVal.str "run"), ("p", runToJ r)])) = true
    by rw [htext]; simp)]
  rw [if_neg (show ¬ ¬ (true : Bool) = true by simp)]
  rw [if_neg (show ¬ maxAge < 0 by omega)]
  show validate_run_payload (runPayloadKVs r) now = Except.ok (runToJ r)
  exact validate_payload_roundtrip r now hq ha ho h0 hle

/-- Claim C7 witness: the fixture run round-trips through the codec. -/
theorem run_token_roundtrip_witness :
    validRun runW ∧ tokenRe (encW (JVal.obj [("k", JVal.str "run"), ("p", runToJ runW)])) = true ∧
      validate_run_token (encode_run encW runW) 2592000 0 = Except.ok (runToJ runW) := by
  refine ⟨by decide, by decide, ?_⟩
  exact run_token_roundtrip encW runW 2592000 0 (by decide) (by decide) (by decide)

end PawQuiz
